import Mathlib

/-!
Shallow embedding of the Duck Game casino bot's ledger and session logic.

Source files embedded here:
  * `src/commands/duckgame.py` — the live ledger and game-session code
    (`duck_command`, `DuckGameView.forward_button_callback`,
    `DuckGameView.stop_button_callback`, `ModeSelectView._launch_mode`,
    economy commands `earn`, `deposit`, `withdraw`, `sendmoney`, `rob`,
    `setmoney`, `release`).
  * `src/utils/rng.py` — `get_secure_hazard`.
  * `src/utils/bank.py` — `adjust_wallet`, `set_balances` (not imported by
    the bot, but embedded since the claims cite them).

Currency amounts are Python floats in the source; they are embedded as
rationals (`ℚ`), which model the exact arithmetic the code intends.
`secrets.randbelow(n)` is modelled by `r % n` for an arbitrary draw
`r : ℕ`, so that every lane in `[0, n-1]` corresponds to some draw.
Discord rendering, message editing and image generation are external
collaborators and are not part of the embedding; only the ledger state,
the view state and the user-visible accept/reject outcome are modelled.
-/

/-- One per-user record of `data/bank.json`, as normalised by
`load_bank` / the `setdefault` calls in `duckgame.py`. -/
structure UserRec where
  wallet : ℚ
  bank : ℚ
  gameActive : Bool
  lastEarnTs : ℚ
  lastRobTs : ℚ
  wins : Nat
  losses : Nat
deriving Repr, DecidableEq

/-- The default record created on first reference:
`{"wallet": 1000.0, "bank": 0.0, "game_active": False, "last_earn_ts": 0.0,
"wins": 0, "losses": 0, "last_rob_ts": 0.0}`. -/
def defaultRec : UserRec :=
  { wallet := 1000, bank := 0, gameActive := false,
    lastEarnTs := 0, lastRobTs := 0, wins := 0, losses := 0 }

/-- `src/utils/rng.py`, `get_secure_hazard(total_lanes)`:
clamps `total_lanes` to at least 1 and returns `secrets.randbelow(lanes)`,
i.e. a value in `[0, lanes-1]`.  The secure draw is modelled by `r % lanes`
for an arbitrary `r : ℕ`. -/
def get_secure_hazard (total_lanes : Int) (r : Nat) : Nat :=
  r % (max 1 total_lanes).toNat

/-- `ModeSelectView._launch_mode`, line
`hazard_pos = get_secure_hazard(total_lanes - 1)`:
the hazard for a mode with `total_lanes` playable lanes is drawn with the
generator parameterised by `total_lanes - 1`. -/
def launchHazard (total_lanes : Nat) (r : Nat) : Nat :=
  get_secure_hazard ((total_lanes : Int) - 1) r

/-- The static mode catalog of `ModeSelectView.__init__`:
mode name ↦ (lane count, multiplier sequence). -/
def modes : List (String × Nat × List ℚ) :=
  [("Easy", 7, [1.00, 1.05, 1.15, 1.80, 2.10, 2.15, 2.30]),
   ("Medium", 5, [1.05, 1.25, 1.70, 2.00, 2.40]),
   ("Hard", 3, [1.50, 2.25, 3.00])]

-- -------------------- session creation (`duck_command`) --------------------

/-- The stake argument of `!duck`: a literal amount, `A` (all) or `H`
(half).  String-level parse failures (`ValueError`) happen before any
ledger access and are not modelled. -/
inductive AmountSpec where
  | all : AmountSpec
  | half : AmountSpec
  | num : ℚ → AmountSpec
deriving Repr, DecidableEq

/-- Outcome of a `duck_command` invocation. -/
inductive CreateResult where
  | ok : CreateResult
  | err : String → CreateResult
deriving Repr, DecidableEq

/-- The resolved-amount part of `duck_command` (lines 745-765): the
`amount <= 0` re-check, the `amount > user_wallet` check, then under the
bank lock the re-loaded `wallet < amount` check followed by the single
mutation `wallet -= amount; game_active = True`.  In this sequential
embedding the pre-lock and in-lock loads see the same record. -/
def duckCreateAmt (rec : UserRec) (amount : ℚ) : UserRec × CreateResult :=
  if amount ≤ 0 then (rec, .err "❌ Bet must be greater than 0.")
  else if amount > rec.wallet then
    (rec, .err "❌ You don't have enough funds to bet that amount.")
  else if rec.wallet < amount then
    (rec, .err "❌ You no longer have enough funds to place that bet.")
  else
    ({ rec with wallet := rec.wallet - amount, gameActive := true }, .ok)

/-- `DuckGame.duck_command` (lines 720-765), ledger-relevant core: the
`game_active` rejection comes first, then the stake spec is resolved
against the current wallet, then `duckCreateAmt` runs the checks and the
single deduction mutation.  The returned record is what the store holds
after the call (identical to the input on every rejection path, since
`update_bank` is only reached on success). -/
def duckCreate (rec : UserRec) (spec : AmountSpec) : UserRec × CreateResult :=
  if rec.gameActive then
    (rec, .err "❌ You already have an active game session.")
  else
    match spec with
    | .all => duckCreateAmt rec rec.wallet
    | .half => duckCreateAmt rec (rec.wallet / 2)
    | .num q =>
        if q ≤ 0 then (rec, .err "❌ Bet must be greater than 0.")
        else duckCreateAmt rec q

-- -------------------- the live game view (`DuckGameView`) --------------------

/-- State of `DuckGameView`, the live game session.  `stopAttached`
records whether the Stop button was added to the view's children in
`__init__` (`if self.position >= 0: self.add_item(self.stop_button)`);
a component interaction can only reach `stop_button_callback` when the
button is part of the view. -/
structure GameView where
  userId : Nat
  amount : ℚ
  position : Int
  hazardPos : Nat
  walletBefore : ℚ
  walletAfter : ℚ
  multiplier : ℚ
  multipliers : List ℚ
  totalLanes : Nat
  sessionWallet : ℚ
  ended : Bool
  stopAttached : Bool
deriving Repr, DecidableEq

/-- `DuckGameView.__init__`: syncs the multiplier to the current lane when
rebuilt on a lane (`if 0 <= self.position < len(self.multipliers)`),
computes `session_wallet`, sets `ended = False`, and attaches the Stop
button only when `position >= 0`. -/
def mkView (userId : Nat) (amount walletBefore walletAfter multiplier : ℚ)
    (multipliers : List ℚ) (totalLanes : Nat) (hazardPos : Nat)
    (startPosition : Int) : GameView :=
  let mult :=
    if 0 ≤ startPosition ∧ startPosition < (multipliers.length : Int) then
      multipliers.getD startPosition.toNat multiplier
    else multiplier
  { userId := userId, amount := amount, position := startPosition,
    hazardPos := hazardPos, walletBefore := walletBefore,
    walletAfter := walletAfter, multiplier := mult,
    multipliers := multipliers, totalLanes := totalLanes,
    sessionWallet := if 0 ≤ startPosition then amount * mult else amount,
    ended := false, stopAttached := decide (0 ≤ startPosition) }

/-- The view created by `ModeSelectView._launch_mode` for a chosen mode:
multiplier 1.0 and the default `start_position = -1` (duck in the grass). -/
def launchView (userId : Nat) (amount walletBefore walletAfter : ℚ)
    (multipliers : List ℚ) (totalLanes : Nat) (hazardPos : Nat) : GameView :=
  mkView userId amount walletBefore walletAfter 1 multipliers totalLanes
    hazardPos (-1)

/-- User-visible outcome of a Forward/Stop interaction. -/
inductive StepResult where
  | rejected : String → StepResult
  | unavailable : StepResult
  | safe : StepResult
  | finished : ℚ → StepResult
  | crashed : StepResult
  | cashedOut : ℚ → StepResult
deriving Repr, DecidableEq

/-- A result that ends the session (payout or loss applied). -/
def StepResult.isTerminal : StepResult → Bool
  | .finished _ => true
  | .crashed => true
  | .cashedOut _ => true
  | _ => false

/-- `DuckGameView.forward_button_callback` (lines 360-518), ledger- and
state-relevant core.  Returns the view now attached to the live message,
the record held by the store after the call, and the outcome.
Branches in source order: the `self.ended` guard, the owner guard, the
step `position += 1`, the in-range multiplier update, the finish branch
(`position > total_lanes - 1`), the crash branch
(`position == hazard_pos`), and the safe branch which constructs a fresh
`DuckGameView` at the new position. -/
def forward (callerId : Nat) (v : GameView) (rec : UserRec) :
    GameView × UserRec × StepResult :=
  if v.ended then (v, rec, .rejected "This game is already finished.")
  else if callerId ≠ v.userId then
    (v, rec, .rejected "You cannot control this game.")
  else
    let pos : Int := v.position + 1
    let mult :=
      if 0 ≤ pos ∧ pos < (v.multipliers.length : Int) then
        v.multipliers.getD pos.toNat v.multiplier
      else v.multiplier
    if pos > (v.totalLanes : Int) - 1 then
      -- finish: apply the final multiplier, credit winnings, mark win
      let finalMult := v.multipliers.getLastD mult
      let payout := v.amount * finalMult
      let afterWallet := v.walletBefore - v.amount + payout
      ({ v with
           position := pos, multiplier := finalMult,
           sessionWallet := payout, ended := true },
       { rec with
           wallet := afterWallet, gameActive := false,
           wins := rec.wins + 1 },
       .finished payout)
    else if pos = (v.hazardPos : Int) then
      -- crash: record the loss, clear the session flag
      let afterWallet := v.walletBefore - v.amount
      ({ v with
           position := pos, multiplier := mult, sessionWallet := 0,
           ended := true },
       { rec with
           wallet := afterWallet, gameActive := false,
           losses := rec.losses + 1 },
       .crashed)
    else
      -- safe move: no ledger mutation; a new view is built for the message
      (mkView v.userId v.amount v.walletBefore v.walletAfter mult
         v.multipliers v.totalLanes v.hazardPos pos,
       rec, .safe)

/-- `DuckGameView.stop_button_callback` (lines 520-578), ledger- and
state-relevant core: the `self.ended` guard, the owner guard, the
current-lane multiplier sync, then the single mutation crediting
`wallet_before - amount + session_wallet`, incrementing `wins` and
clearing `game_active`. -/
def stop (callerId : Nat) (v : GameView) (rec : UserRec) :
    GameView × UserRec × StepResult :=
  if v.ended then (v, rec, .rejected "This game is already finished.")
  else if callerId ≠ v.userId then
    (v, rec, .rejected "You cannot control this game.")
  else
    let mult :=
      if 0 ≤ v.position ∧ v.position < (v.multipliers.length : Int) then
        v.multipliers.getD v.position.toNat v.multiplier
      else v.multiplier
    let payout := v.amount * mult
    let afterWallet := v.walletBefore - v.amount + payout
    ({ v with
         multiplier := mult, sessionWallet := payout, ended := true },
     { rec with
         wallet := afterWallet, gameActive := false,
         wins := rec.wins + 1 },
     .cashedOut payout)

/-- Delivery of a cash-out request to the live view: Discord only routes a
component interaction to `stop_button_callback` when the Stop button is a
child of the view; `__init__` attaches it only for `position >= 0`. -/
def requestCashOut (callerId : Nat) (v : GameView) (rec : UserRec) :
    GameView × UserRec × StepResult :=
  if v.stopAttached then stop callerId v rec else (v, rec, .unavailable)

/-- Either button press on the live view (`true` = Stop, `false` = Forward). -/
def doAction (useStop : Bool) (callerId : Nat) (v : GameView) (rec : UserRec) :
    GameView × UserRec × StepResult :=
  if useStop then stop callerId v rec else forward callerId v rec

-- -------------------- economy commands (ledger contracts) --------------------

/-- `EARN_AMOUNT = 20_000.0` in `duckgame.py`. -/
def EARN_AMOUNT : ℚ := 20000

/-- `COOLDOWN_SECONDS = 3600.0` in `duckgame.py`. -/
def COOLDOWN_SECONDS : ℚ := 3600

/-- `DuckGame.earn_command` (lines 908-929): cooldown check against
`last_earn_ts`, then the single mutation `wallet += EARN_AMOUNT;
last_earn_ts = now`.  Returns the stored record and whether the earn
succeeded. -/
def earn (rec : UserRec) (now : ℚ) : UserRec × Bool :=
  if 0 < rec.lastEarnTs + COOLDOWN_SECONDS - now then (rec, false)
  else
    ({ rec with
         wallet := rec.wallet + EARN_AMOUNT, lastEarnTs := now }, true)

/-- `DuckGame.deposit_command` (lines 969-1000) after `A`/`H` resolution:
reject non-positive amounts and amounts above the wallet, else move
`amount` from wallet to bank. -/
def depositAmt (rec : UserRec) (amount : ℚ) : UserRec × Bool :=
  if amount ≤ 0 then (rec, false)
  else if amount > rec.wallet then (rec, false)
  else
    ({ rec with
         wallet := rec.wallet - amount, bank := rec.bank + amount }, true)

/-- `DuckGame.withdraw_command` (lines 933-964) after `A`/`H` resolution:
reject non-positive amounts and amounts above the bank, else move
`amount` from bank to wallet. -/
def withdrawAmt (rec : UserRec) (amount : ℚ) : UserRec × Bool :=
  if amount ≤ 0 then (rec, false)
  else if amount > rec.bank then (rec, false)
  else
    ({ rec with
         wallet := rec.wallet + amount, bank := rec.bank - amount }, true)

/-- `DuckGame.sendmoney_command` (lines 879-904), ledger core (the
self-send rejection touches no ledger state): reject non-positive
amounts and amounts above the sender's wallet, else transfer. -/
def sendMoney (sender receiver : UserRec) (amount : ℚ) :
    UserRec × UserRec × Bool :=
  if amount ≤ 0 then (sender, receiver, false)
  else if sender.wallet < amount then (sender, receiver, false)
  else
    ({ sender with wallet := sender.wallet - amount },
     { receiver with wallet := receiver.wallet + amount },
     true)

/-- `DuckGame.rob_command` (lines 1065-1121), ledger core.  `success`
models `bool(secrets.randbits(1))` and `stealR` models
`secrets.randbelow(10)` (so `steal_pct = (stealR % 10 + 1) / 100`).
On a failed rob with a positive wallet the fine is
`max(1.0, robber_wallet * 0.05)`.  Returns (robber, victim) as stored
after the call. -/
def rob (robber victim : UserRec) (now : ℚ) (success : Bool)
    (stealR : Nat) : UserRec × UserRec :=
  if 0 < robber.lastRobTs + 90 * 60 - now then (robber, victim)
  else if success then
    if victim.wallet ≤ 0 then
      ({ robber with lastRobTs := now }, victim)
    else
      let stealPct : ℚ := ((stealR % 10 : Nat) + 1) / 100
      let amount := min (max 1 (victim.wallet * stealPct)) victim.wallet
      ({ robber with
           wallet := robber.wallet + amount, lastRobTs := now },
       { victim with wallet := victim.wallet - amount })
  else
    if robber.wallet ≤ 0 then
      ({ robber with lastRobTs := now }, victim)
    else
      let fine := max 1 (robber.wallet * (5 / 100))
      ({ robber with
           wallet := robber.wallet - fine, lastRobTs := now }, victim)

/-- `DuckGame.set_money_command` (lines 1004-1030): negative wallet or
bank aborts before `update_bank` (so nothing is persisted), otherwise
the given compartments are set. -/
def setMoney (rec : UserRec) (w b : Option ℚ) : UserRec × Bool :=
  match w, b with
  | some wv, some bv =>
      if wv < 0 then (rec, false)
      else if bv < 0 then (rec, false)
      else ({ rec with wallet := wv, bank := bv }, true)
  | some wv, none =>
      if wv < 0 then (rec, false) else ({ rec with wallet := wv }, true)
  | none, some bv =>
      if bv < 0 then (rec, false) else ({ rec with bank := bv }, true)
  | none, none => (rec, true)

/-- `DuckGame.release_command` / `self_release_command`: clears the
`game_active` flag with no balance change. -/
def releaseUser (rec : UserRec) : UserRec :=
  { rec with gameActive := false }

/-- `src/utils/bank.py`, `adjust_wallet(user_id, delta, floor=0.0)`:
adds `delta` to the wallet unless the result would drop below `floor`. -/
def adjust_wallet (rec : UserRec) (delta floor : ℚ) : UserRec × Bool :=
  if rec.wallet + delta < floor then (rec, false)
  else ({ rec with wallet := rec.wallet + delta }, true)

/-- `src/utils/bank.py`, `set_balances`: sets wallet and/or bank, each
clamped to `max 0`. -/
def set_balances (rec : UserRec) (w b : Option ℚ) : UserRec :=
  let rec1 := match w with
    | some wv => { rec with wallet := max 0 wv }
    | none => rec
  match b with
  | some bv => { rec1 with bank := max 0 bv }
  | none => rec1

-- ============================ helper lemmas ============================

theorem one_le_getD (l : List ℚ) : ∀ (n : Nat) (d : ℚ), 1 ≤ d →
    (∀ m ∈ l, 1 ≤ m) → 1 ≤ l.getD n d := by
  induction l with
  | nil => intro n d hd _; simpa [List.getD] using hd
  | cons a t ih =>
      intro n d hd hl
      cases n with
      | zero => simpa using hl a (by simp)
      | succ k =>
          simpa using ih k d hd (fun m hm => hl m (by simp [hm]))

theorem one_le_getLastD (l : List ℚ) : ∀ d : ℚ, 1 ≤ d →
    (∀ m ∈ l, 1 ≤ m) → 1 ≤ l.getLastD d := by
  induction l with
  | nil => intro d hd _; simpa using hd
  | cons a t ih =>
      intro d _ hl
      rw [List.getLastD_cons]
      exact ih a (hl a (by simp)) (fun m hm => hl m (by simp [hm]))

theorem getLastD_eq_getD (l : List ℚ) : ∀ d d' : ℚ, l ≠ [] →
    l.getLastD d = l.getD (l.length - 1) d' := by
  induction l with
  | nil => intro _ _ h; exact absurd rfl h
  | cons a t ih =>
      intro d d' _
      cases t with
      | nil => rfl
      | cons b t' =>
          rw [List.getLastD_cons, ih a d' (by simp)]
          simp [List.getD_cons_succ]

/-- Rejection of a Forward press on a finished session
(`forward_button_callback` lines 362-368): no state or ledger change. -/
theorem forward_on_ended (c : Nat) (v : GameView) (rec : UserRec)
    (h : v.ended = true) :
    forward c v rec = (v, rec, .rejected "This game is already finished.") := by
  simp [forward, h]

/-- Rejection of a Stop press on a finished session
(`stop_button_callback` lines 522-527): no state or ledger change. -/
theorem stop_on_ended (c : Nat) (v : GameView) (rec : UserRec)
    (h : v.ended = true) :
    stop c v rec = (v, rec, .rejected "This game is already finished.") := by
  simp [stop, h]

/-- Any button press whose outcome is terminal leaves the view with
`ended = true`. -/
theorem ended_of_terminal (useStop : Bool) (c : Nat) (v : GameView)
    (rec : UserRec)
    (h : ((doAction useStop c v rec).2.2).isTerminal = true) :
    (doAction useStop c v rec).1.ended = true := by
  cases useStop with
  | true =>
      simp only [doAction, if_pos, stop] at h ⊢
      split_ifs at h ⊢ <;> simp_all [StepResult.isTerminal]
  | false =>
      simp only [doAction, if_neg, forward] at h ⊢
      split_ifs at h ⊢ <;> simp_all [StepResult.isTerminal, mkView]

-- ============================ demo inputs ============================

/-- The Hard mode multiplier sequence, used for concrete instances. -/
def demoMults : List ℚ := [1.50, 2.25, 3.00]

/-- A live Hard-mode session of player 1, stake 100, hazard lane 0, at
position `p`: wallet before bet 1000, after bet 900. -/
def demoView (p : Int) : GameView := mkView 1 100 1000 900 1 demoMults 3 0 p

/-- The ledger record matching `demoView`: stake already deducted,
session flagged active. -/
def demoRec : UserRec := { defaultRec with wallet := 900, gameActive := true }

-- ============================ C1 ============================

/-- C1: once a session has reached a terminal state (finished, crashed,
or cashed out — any button press whose outcome is terminal), a second
`advance` or `cashOut` on that same session leaves the view and the
ledger record exactly unchanged (no credit, no win/loss increment, no
`gameActive` change) and is rejected with the "already finished"
message; hence the payout of the first call is applied exactly once. -/
theorem duck_c1_terminal_rejects_again (useStop : Bool) (c c' : Nat)
    (v : GameView) (rec : UserRec)
    (hterm : ((doAction useStop c v rec).2.2).isTerminal = true) :
    forward c' (doAction useStop c v rec).1 (doAction useStop c v rec).2.1 =
      ((doAction useStop c v rec).1, (doAction useStop c v rec).2.1,
        .rejected "This game is already finished.") ∧
    stop c' (doAction useStop c v rec).1 (doAction useStop c v rec).2.1 =
      ((doAction useStop c v rec).1, (doAction useStop c v rec).2.1,
        .rejected "This game is already finished.") := by
  have he := ended_of_terminal useStop c v rec hterm
  exact ⟨forward_on_ended _ _ _ he, stop_on_ended _ _ _ he⟩

/-- C1 witness: player 1 advances from the last lane of the demo session
and finishes; the repeated Forward and Stop presses are both rejected
without touching the view or the record. -/
theorem duck_c1_witness :
    forward 2 (doAction false 1 (demoView 2) demoRec).1
        (doAction false 1 (demoView 2) demoRec).2.1 =
      ((doAction false 1 (demoView 2) demoRec).1,
       (doAction false 1 (demoView 2) demoRec).2.1,
       .rejected "This game is already finished.") ∧
    stop 2 (doAction false 1 (demoView 2) demoRec).1
        (doAction false 1 (demoView 2) demoRec).2.1 =
      ((doAction false 1 (demoView 2) demoRec).1,
       (doAction false 1 (demoView 2) demoRec).2.1,
       .rejected "This game is already finished.") :=
  duck_c1_terminal_rejects_again false 1 2 (demoView 2) demoRec (by decide)

-- ============================ C5 ============================

/-- C5: a successful session creation with a positive stake `s` not
exceeding the wallet performs exactly one ledger mutation, leaving the
wallet exactly `s` lower and `gameActive` true, with every other field —
in particular `bank` — unchanged (the structured update fixes all other
fields to their previous values). -/
theorem duck_c5_stake_conservation (rec : UserRec) (s : ℚ)
    (hactive : rec.gameActive = false) (hpos : 0 < s)
    (hle : s ≤ rec.wallet) :
    duckCreate rec (.num s) =
      ({ rec with wallet := rec.wallet - s, gameActive := true }, .ok) := by
  have h0 : ¬ s ≤ 0 := not_le.mpr hpos
  have h1 : ¬ s > rec.wallet := not_lt.mpr hle
  have h2 : ¬ rec.wallet < s := not_lt.mpr hle
  simp [duckCreate, duckCreateAmt, hactive, h0, h1, h2]

/-- C5 witness: a fresh default record staking 100 ends with wallet 900,
`gameActive` true and bank unchanged. -/
theorem duck_c5_witness :
    duckCreate defaultRec (.num 100) =
      ({ defaultRec with
           wallet := defaultRec.wallet - 100,
           gameActive := true }, .ok) :=
  duck_c5_stake_conservation defaultRec 100 (by decide) (by decide) (by decide)

-- ============================ C6 ============================

/-- C6: a session-creation request by a player whose record has
`gameActive = true` is rejected with the "already have an active game
session" message and the returned record is the input record itself, so
wallet, bank, gameActive, wins, losses and the cooldown timestamps are
all unchanged.  This holds for every stake spec (literal, all, half). -/
theorem duck_c6_no_double_session (rec : UserRec) (spec : AmountSpec)
    (h : rec.gameActive = true) :
    duckCreate rec spec =
      (rec, .err "❌ You already have an active game session.") := by
  simp [duckCreate, h]

/-- C6 witness: the demo record (active session) is rejected unchanged. -/
theorem duck_c6_witness :
    duckCreate demoRec (.num 50) =
      (demoRec, .err "❌ You already have an active game session.") :=
  duck_c6_no_double_session demoRec (.num 50) (by decide)

-- ==================== finish / crash branch lemmas ====================

/-- The finish branch of `forward_button_callback`: advancing a
non-terminal session past the last playable lane applies the last entry
of the multiplier sequence, credits `wallet_before - amount + payout`,
increments `wins` and clears `game_active`. -/
theorem forward_finish (v : GameView) (rec : UserRec)
    (hend : v.ended = false)
    (hpos : v.position + 1 = (v.totalLanes : Int))
    (hlen : v.multipliers.length = v.totalLanes)
    (hlanes : 1 ≤ v.totalLanes) :
    forward v.userId v rec =
      ({ v with
           position := v.position + 1,
           multiplier := v.multipliers.getD (v.totalLanes - 1) 0,
           sessionWallet :=
             v.amount * v.multipliers.getD (v.totalLanes - 1) 0,
           ended := true },
       { rec with
           wallet := v.walletBefore - v.amount +
             v.amount * v.multipliers.getD (v.totalLanes - 1) 0,
           gameActive := false,
           wins := rec.wins + 1 },
       .finished (v.amount * v.multipliers.getD (v.totalLanes - 1) 0)) := by
  have hne : v.multipliers ≠ [] := by
    intro h
    rw [h] at hlen
    simp at hlen
    omega
  have hgt : v.position + 1 > (v.totalLanes : Int) - 1 := by omega
  have hguard : ¬ (0 ≤ v.position + 1 ∧
      v.position + 1 < (v.multipliers.length : Int)) := by
    rw [hlen]
    omega
  have hlast : v.multipliers.getLastD v.multiplier =
      v.multipliers.getD (v.totalLanes - 1) 0 := by
    rw [getLastD_eq_getD v.multipliers _ 0 hne, hlen]
  simp only [forward]
  rw [if_neg (by simp [hend]), if_neg (by simp), if_neg hguard,
    if_pos hgt, hlast]

/-- The crash branch of `forward_button_callback`: advancing a
non-terminal session onto the hazard lane (which lies strictly below the
last playable lane) overwrites the wallet with `wallet_before - amount`,
clears `game_active` and increments `losses`. -/
theorem forward_crash (v : GameView) (rec : UserRec)
    (hend : v.ended = false)
    (hhaz : v.position + 1 = (v.hazardPos : Int))
    (hbound : (v.hazardPos : Int) ≤ (v.totalLanes : Int) - 2) :
    (forward v.userId v rec).2.1 =
      { rec with
          wallet := v.walletBefore - v.amount,
          gameActive := false,
          losses := rec.losses + 1 } ∧
    (forward v.userId v rec).2.2 = .crashed := by
  have hngt : ¬ (v.position + 1 > (v.totalLanes : Int) - 1) := by omega
  simp only [forward]
  rw [if_neg (by simp [hend]), if_neg (by simp), if_neg hngt, if_pos hhaz]
  exact ⟨rfl, rfl⟩

-- ============================ C2 ============================

/-- C2: advancing a non-terminal session from the last playable lane to
`position = laneCount` finishes the session and mutates the ledger by
crediting `stake × multiplierSequence[laneCount-1]` to the wallet (the
wallet holding `walletBefore - stake` since creation, as safe moves do
not touch the ledger), incrementing `wins` by one and clearing
`gameActive`; bank and losses are untouched.  The statement quantifies
over arbitrary hazard positions and multiplier state, so the result is
independent of the intermediate path taken. -/
theorem duck_c2_finish_payout (v : GameView) (rec : UserRec)
    (hend : v.ended = false)
    (hpos : v.position + 1 = (v.totalLanes : Int))
    (hlen : v.multipliers.length = v.totalLanes)
    (hlanes : 1 ≤ v.totalLanes)
    (hw : rec.wallet = v.walletBefore - v.amount) :
    (forward v.userId v rec).2.2 =
      .finished (v.amount * v.multipliers.getD (v.totalLanes - 1) 0) ∧
    (forward v.userId v rec).2.1.wallet =
      rec.wallet + v.amount * v.multipliers.getD (v.totalLanes - 1) 0 ∧
    (forward v.userId v rec).2.1.wins = rec.wins + 1 ∧
    (forward v.userId v rec).2.1.gameActive = false ∧
    (forward v.userId v rec).2.1.bank = rec.bank ∧
    (forward v.userId v rec).2.1.losses = rec.losses ∧
    (forward v.userId v rec).1.ended = true := by
  rw [forward_finish v rec hend hpos hlen hlanes]
  refine ⟨rfl, ?_, rfl, rfl, rfl, rfl, rfl⟩
  show v.walletBefore - v.amount + _ = rec.wallet + _
  rw [hw]

/-- C2 witness: the demo Hard-mode session at the last lane finishes
with payout `100 × 3.00 = 300`, wallet `900 + 300`, one more win, and
`gameActive` cleared. -/
theorem duck_c2_witness :
    (forward (demoView 2).userId (demoView 2) demoRec).2.2 =
      .finished (100 * demoMults.getD 2 0) ∧
    (forward (demoView 2).userId (demoView 2) demoRec).2.1.wallet =
      demoRec.wallet + 100 * demoMults.getD 2 0 ∧
    (forward (demoView 2).userId (demoView 2) demoRec).2.1.wins =
      demoRec.wins + 1 ∧
    (forward (demoView 2).userId (demoView 2) demoRec).2.1.gameActive =
      false ∧
    (forward (demoView 2).userId (demoView 2) demoRec).2.1.bank =
      demoRec.bank ∧
    (forward (demoView 2).userId (demoView 2) demoRec).2.1.losses =
      demoRec.losses ∧
    (forward (demoView 2).userId (demoView 2) demoRec).1.ended = true :=
  duck_c2_finish_payout (demoView 2) demoRec (by decide) (by decide)
    (by decide) (by decide)
    (by norm_num [demoRec, demoView, mkView, defaultRec])

-- ============================ C3 ============================

/-- C3 (amended): advancing a non-terminal session onto the hazard lane
crashes the session, sets `gameActive` to false and increments `losses`
by one while leaving `wins` and `bank` unchanged; the crash mutation
writes `walletBefore - stake` into the wallet, so the wallet field is
unchanged (no second deduction, no credit) exactly when the wallet at
the moment of the crash still equals `walletBefore - stake`, the value
established by the stake deduction at creation — not for arbitrary
wallet values. -/
theorem duck_c3_crash_frame (v : GameView) (rec : UserRec)
    (hend : v.ended = false)
    (hhaz : v.position + 1 = (v.hazardPos : Int))
    (hbound : (v.hazardPos : Int) ≤ (v.totalLanes : Int) - 2)
    (hw : rec.wallet = v.walletBefore - v.amount) :
    (forward v.userId v rec).2.2 = .crashed ∧
    (forward v.userId v rec).2.1.wallet = rec.wallet ∧
    (forward v.userId v rec).2.1.gameActive = false ∧
    (forward v.userId v rec).2.1.losses = rec.losses + 1 ∧
    (forward v.userId v rec).2.1.wins = rec.wins ∧
    (forward v.userId v rec).2.1.bank = rec.bank := by
  obtain ⟨h1, h2⟩ := forward_crash v rec hend hhaz hbound
  rw [h1, h2]
  exact ⟨rfl, hw.symm, rfl, rfl, rfl, rfl⟩

/-- C3 counterexample: the claim as stated ("wallet unchanged, whatever
the wallet's value is at the moment of the crash") is false.  In the
demo session (stake 100, wallet 1000 before the bet) a record whose
wallet has meanwhile grown to 20900 (e.g. via `!earn`) is overwritten
with `1000 - 100 = 900` by the crash mutation: the wallet field changes
even though the run crashed. -/
theorem duck_c3_counterexample :
    (forward 1 (demoView (-1)) { defaultRec with
        wallet := 20900, gameActive := true }).2.2 = .crashed ∧
    (forward 1 (demoView (-1)) { defaultRec with
        wallet := 20900, gameActive := true }).2.1.wallet ≠ 20900 := by
  constructor
  · norm_num [forward, demoView, mkView, demoMults]
  · norm_num [forward, demoView, mkView, demoMults]

/-- C3 witness: the demo session (hazard on lane 0) advanced from the
grass crashes; its record still holds `1000 - 100 = 900`, so the wallet
is unchanged while `losses` goes up by one and `gameActive` clears. -/
theorem duck_c3_witness :
    (forward (demoView (-1)).userId (demoView (-1)) demoRec).2.2 =
      .crashed ∧
    (forward (demoView (-1)).userId (demoView (-1)) demoRec).2.1.wallet =
      demoRec.wallet ∧
    (forward (demoView (-1)).userId (demoView (-1)) demoRec).2.1.gameActive
      = false ∧
    (forward (demoView (-1)).userId (demoView (-1)) demoRec).2.1.losses =
      demoRec.losses + 1 ∧
    (forward (demoView (-1)).userId (demoView (-1)) demoRec).2.1.wins =
      demoRec.wins ∧
    (forward (demoView (-1)).userId (demoView (-1)) demoRec).2.1.bank =
      demoRec.bank :=
  duck_c3_crash_frame (demoView (-1)) demoRec (by decide) (by decide)
    (by decide) (by norm_num [demoRec, demoView, mkView, defaultRec])

-- ============================ C4 ============================

/-- For at least two playable lanes, the hazard draw of `_launch_mode`
is a residue modulo `total_lanes - 1`. -/
theorem launchHazard_eq (lanes r : Nat) (h : 2 ≤ lanes) :
    launchHazard lanes r = r % (lanes - 1) := by
  unfold launchHazard get_secure_hazard
  have h2 : max 1 ((lanes : Int) - 1) = (lanes : Int) - 1 :=
    max_eq_right (by omega)
  rw [h2]
  congr 1
  omega

/-- The hazard drawn at launch never lands on the last playable lane. -/
theorem launchHazard_le (lanes r : Nat) (h : 2 ≤ lanes) :
    launchHazard lanes r ≤ lanes - 2 := by
  rw [launchHazard_eq lanes r h]
  have h4 := Nat.mod_lt r (show 0 < lanes - 1 by omega)
  omega

/-- C4 counterexample: the claim that every lane index in
`[0, laneCount-1]` is a possible hazard is false.  For the catalog's
Hard mode (3 lanes), lane 2 lies in `[0, 2]` but no draw of the
launch-time generator (`get_secure_hazard(total_lanes - 1)`, i.e. a
residue modulo 2) ever places the hazard there. -/
theorem duck_c4_counterexample :
    (("Hard", 3, ([1.50, 2.25, 3.00] : List ℚ)) ∈ modes) ∧
    ¬ ∃ r : Nat, launchHazard 3 r = 2 := by
  refine ⟨by simp [modes], ?_⟩
  rintro ⟨r, hr⟩
  rw [launchHazard_eq 3 r (by norm_num)] at hr
  omega

/-- C4 (amended): the hazard lane drawn at launch for a mode with
`laneCount ≥ 2` playable lanes always lies in `[0, laneCount-2]` (hence
a fortiori in `[0, laneCount-1]`), every lane index in
`[0, laneCount-2]` — but not the last lane — is produced by some draw,
and a non-terminal session crashes on `advance` exactly when the new
position equals the hazard lane. -/
theorem duck_c4_hazard_containment (lanes r k : Nat)
    (v : GameView) (rec : UserRec)
    (hlanes : 2 ≤ lanes) (hk : k ≤ lanes - 2)
    (hend : v.ended = false)
    (hbound : (v.hazardPos : Int) ≤ (v.totalLanes : Int) - 2) :
    launchHazard lanes r ≤ lanes - 2 ∧
    launchHazard lanes r < lanes ∧
    (∃ d : Nat, launchHazard lanes d = k) ∧
    ((forward v.userId v rec).2.2 = .crashed ↔
      v.position + 1 = (v.hazardPos : Int)) := by
  have hle := launchHazard_le lanes r hlanes
  refine ⟨hle, by omega, ⟨k, ?_⟩, ?_⟩
  · rw [launchHazard_eq lanes k hlanes]
    exact Nat.mod_eq_of_lt (by omega)
  · by_cases hfin : v.position + 1 > (v.totalLanes : Int) - 1
    · constructor
      · intro hres
        simp only [forward] at hres
        rw [if_neg (by simp [hend]), if_neg (by simp),
          if_pos hfin] at hres
        exact absurd hres (by simp)
      · intro hres
        omega
    · by_cases hcr : v.position + 1 = (v.hazardPos : Int)
      · have := forward_crash v rec hend hcr hbound
        simp [this.2, hcr]
      · constructor
        · intro hres
          simp only [forward] at hres
          rw [if_neg (by simp [hend]), if_neg (by simp), if_neg hfin,
            if_neg hcr] at hres
          exact absurd hres (by simp)
        · intro hres
          exact absurd hres hcr

/-- C4 witness: for the Hard mode's 3 lanes, draw 5 lands on lane
`5 % 2 = 1 ≤ 1`, lane 1 is reachable by some draw, and the demo session
one step before its hazard lane crashes on the next advance. -/
theorem duck_c4_witness :
    launchHazard 3 5 ≤ 1 ∧
    launchHazard 3 5 < 3 ∧
    (∃ d : Nat, launchHazard 3 d = 1) ∧
    ((forward (demoView (-1)).userId (demoView (-1)) demoRec).2.2 =
        .crashed ↔
      (demoView (-1)).position + 1 = ((demoView (-1)).hazardPos : Int)) :=
  duck_c4_hazard_containment 3 5 1 (demoView (-1)) demoRec (by decide)
    (by decide) (by decide) (by decide)

-- ============================ C10 ============================

/-- Basic facts about the mode catalog: every mode has at least two
lanes, exactly `laneCount` multipliers, and all multipliers are ≥ 1. -/
theorem mode_facts (name : String) (lanes : Nat) (mults : List ℚ)
    (h : (name, lanes, mults) ∈ modes) :
    2 ≤ lanes ∧ mults.length = lanes ∧ ∀ m ∈ mults, 1 ≤ m := by
  simp only [modes, List.mem_cons, List.not_mem_nil, or_false,
    Prod.mk.injEq] at h
  rcases h with ⟨_, h2, h3⟩ | ⟨_, h2, h3⟩ | ⟨_, h2, h3⟩ <;>
    subst h2 <;> subst h3 <;>
    refine ⟨by norm_num, by simp, ?_⟩ <;>
    intro m hm <;> fin_cases hm <;> norm_num

/-- C10: for every catalog mode, the hazard drawn at launch
(`get_secure_hazard(total_lanes - 1)`) is at most `laneCount - 2`, so
the last playable lane is never the hazard; consequently a non-terminal
session standing on the last playable lane always finishes safely on
the next advance, with the full final multiplier
`multiplierSequence[laneCount-1]`, a win recorded and the session flag
cleared. -/
theorem duck_c10_last_lane_always_safe (name : String) (lanes : Nat)
    (mults : List ℚ) (r : Nat) (v : GameView) (rec : UserRec)
    (hmode : (name, lanes, mults) ∈ modes)
    (hend : v.ended = false)
    (hlanes : v.totalLanes = lanes) (hmults : v.multipliers = mults)
    (hpos : v.position = (lanes : Int) - 1) :
    launchHazard lanes r ≤ lanes - 2 ∧
    (forward v.userId v rec).2.2 =
      .finished (v.amount * mults.getD (lanes - 1) 0) ∧
    (forward v.userId v rec).2.1.wins = rec.wins + 1 ∧
    (forward v.userId v rec).2.1.gameActive = false := by
  obtain ⟨h2, hlen, _⟩ := mode_facts name lanes mults hmode
  have hfin := forward_finish v rec hend
    (by rw [hpos, hlanes]; omega)
    (by rw [hmults, hlanes, hlen]) (by rw [hlanes]; omega)
  rw [hfin]
  refine ⟨launchHazard_le lanes r h2, ?_, rfl, rfl⟩
  rw [hmults, hlanes]

/-- C10 witness: in Hard mode (3 lanes) any draw keeps the hazard at or
below lane 1, and the demo session standing on lane 2 finishes with
payout `100 × 3.00` on the next advance. -/
theorem duck_c10_witness :
    launchHazard 3 9 ≤ 1 ∧
    (forward (demoView 2).userId (demoView 2) demoRec).2.2 =
      .finished ((demoView 2).amount * demoMults.getD 2 0) ∧
    (forward (demoView 2).userId (demoView 2) demoRec).2.1.wins =
      demoRec.wins + 1 ∧
    (forward (demoView 2).userId (demoView 2) demoRec).2.1.gameActive =
      false :=
  duck_c10_last_lane_always_safe "Hard" 3 demoMults 9 (demoView 2) demoRec
    (by simp [modes, demoMults]) (by decide) (by decide) (by rfl)
    (by decide)

-- ============================ C8 ============================

/-- C8: for every session view built at a position below 0 (in
particular the freshly launched session at position -1, before any safe
advance), the Stop control is not part of the view, so a cash-out
request is not a valid action: it is not delivered to
`stop_button_callback`, and the ledger record is returned exactly
unchanged — no payout credited, `wins` not incremented, `gameActive`
untouched.  Cashing out therefore requires `position ≥ 0`. -/
theorem duck_c8_no_cashout_before_first_advance (userId : Nat)
    (amount walletBefore walletAfter multiplier : ℚ)
    (multipliers : List ℚ) (totalLanes hazardPos : Nat)
    (startPosition : Int) (c : Nat) (rec : UserRec)
    (h : startPosition < 0) :
    (mkView userId amount walletBefore walletAfter multiplier multipliers
        totalLanes hazardPos startPosition).stopAttached = false ∧
    requestCashOut c
        (mkView userId amount walletBefore walletAfter multiplier
          multipliers totalLanes hazardPos startPosition) rec =
      (mkView userId amount walletBefore walletAfter multiplier
          multipliers totalLanes hazardPos startPosition,
       rec, .unavailable) := by
  have hs : (mkView userId amount walletBefore walletAfter multiplier
      multipliers totalLanes hazardPos startPosition).stopAttached
        = false := by
    simp only [mkView]
    simpa using h
  refine ⟨hs, ?_⟩
  simp [requestCashOut, hs]

/-- C8 witness: a cash-out request against the freshly launched demo
session (position -1) is undeliverable and leaves the record unchanged. -/
theorem duck_c8_witness :
    (mkView 1 100 1000 900 1 demoMults 3 0 (-1)).stopAttached = false ∧
    requestCashOut 1 (mkView 1 100 1000 900 1 demoMults 3 0 (-1)) demoRec =
      (mkView 1 100 1000 900 1 demoMults 3 0 (-1), demoRec,
       .unavailable) :=
  duck_c8_no_cashout_before_first_advance 1 100 1000 900 1 demoMults 3 0
    (-1) 1 demoRec (by decide)

-- ============================ C7 ============================

/-- Wallet nonnegativity across `forward`: every branch (rejection,
finish credit, crash overwrite, safe move) leaves the wallet ≥ 0,
given the creation invariants `0 ≤ stake ≤ walletBefore` and
multipliers ≥ 1. -/
theorem forward_wallet_nonneg (c : Nat) (v : GameView) (rec : UserRec)
    (hrec : 0 ≤ rec.wallet) (hvamt : 0 ≤ v.amount)
    (hvwb : v.amount ≤ v.walletBefore)
    (hvm : ∀ m ∈ v.multipliers, 1 ≤ m) (hvmul : 1 ≤ v.multiplier) :
    0 ≤ (forward c v rec).2.1.wallet := by
  have hd := one_le_getD v.multipliers (v.position + 1).toNat v.multiplier
    hvmul hvm
  have hX1 := one_le_getLastD v.multipliers
    (v.multipliers.getD (v.position + 1).toNat v.multiplier) hd hvm
  have hX2 := one_le_getLastD v.multipliers v.multiplier hvmul hvm
  simp only [forward]
  split_ifs with h1 h2 h3 h4 h5 h6 h7 <;> dsimp only <;>
    first
      | simpa using hrec
      | nlinarith [mul_nonneg hvamt (sub_nonneg.mpr hX1),
          mul_nonneg hvamt (sub_nonneg.mpr hX2)]

/-- Wallet nonnegativity across `stop`, under the same invariants. -/
theorem stop_wallet_nonneg (c : Nat) (v : GameView) (rec : UserRec)
    (hrec : 0 ≤ rec.wallet) (hvamt : 0 ≤ v.amount)
    (hvwb : v.amount ≤ v.walletBefore)
    (hvm : ∀ m ∈ v.multipliers, 1 ≤ m) (hvmul : 1 ≤ v.multiplier) :
    0 ≤ (stop c v rec).2.1.wallet := by
  have hd := one_le_getD v.multipliers v.position.toNat v.multiplier
    hvmul hvm
  simp only [stop]
  split_ifs with h1 h2 h3 <;> dsimp only <;>
    first
      | simpa using hrec
      | nlinarith [mul_nonneg hvamt (sub_nonneg.mpr hd),
          mul_nonneg hvamt (sub_nonneg.mpr hvmul)]

theorem duckCreate_wallet_nonneg (rec : UserRec) (spec : AmountSpec)
    (hrec : 0 ≤ rec.wallet) : 0 ≤ (duckCreate rec spec).1.wallet := by
  have hAmt : ∀ a : ℚ, 0 ≤ (duckCreateAmt rec a).1.wallet := by
    intro a
    unfold duckCreateAmt
    split_ifs <;> dsimp only <;> linarith
  unfold duckCreate
  split_ifs with h
  · simpa using hrec
  · cases spec with
    | all => exact hAmt _
    | half => exact hAmt _
    | num q =>
        dsimp only
        split_ifs with hq
        · simpa using hrec
        · exact hAmt q

theorem requestCashOut_wallet_nonneg (c : Nat) (v : GameView)
    (rec : UserRec)
    (hrec : 0 ≤ rec.wallet) (hvamt : 0 ≤ v.amount)
    (hvwb : v.amount ≤ v.walletBefore)
    (hvm : ∀ m ∈ v.multipliers, 1 ≤ m) (hvmul : 1 ≤ v.multiplier) :
    0 ≤ (requestCashOut c v rec).2.1.wallet := by
  unfold requestCashOut
  split_ifs with h
  · exact stop_wallet_nonneg c v rec hrec hvamt hvwb hvm hvmul
  · exact hrec

theorem earn_wallet_nonneg (rec : UserRec) (now : ℚ)
    (hrec : 0 ≤ rec.wallet) : 0 ≤ (earn rec now).1.wallet := by
  have hE : (0:ℚ) ≤ EARN_AMOUNT := by norm_num [EARN_AMOUNT]
  unfold earn
  split_ifs <;> dsimp only <;> linarith

theorem depositAmt_wallet_nonneg (rec : UserRec) (amount : ℚ)
    (hrec : 0 ≤ rec.wallet) : 0 ≤ (depositAmt rec amount).1.wallet := by
  unfold depositAmt
  split_ifs <;> dsimp only <;> linarith

theorem withdrawAmt_wallet_nonneg (rec : UserRec) (amount : ℚ)
    (hrec : 0 ≤ rec.wallet) : 0 ≤ (withdrawAmt rec amount).1.wallet := by
  unfold withdrawAmt
  split_ifs with h1 h2 <;> dsimp only <;> linarith

theorem sendMoney_wallet_nonneg (sender receiver : UserRec) (amount : ℚ)
    (hs : 0 ≤ sender.wallet) (hr : 0 ≤ receiver.wallet) :
    0 ≤ (sendMoney sender receiver amount).1.wallet ∧
    0 ≤ (sendMoney sender receiver amount).2.1.wallet := by
  unfold sendMoney
  split_ifs with h1 h2 <;> dsimp only
  · exact ⟨hs, hr⟩
  · exact ⟨hs, hr⟩
  · constructor
    · linarith [not_lt.mp h2]
    · linarith [not_le.mp h1]

/-- A successful rob transfers `min(max(1, victim·pct), victimWallet)`:
both wallets stay nonnegative. -/
theorem rob_success_nonneg (robber victim : UserRec) (now : ℚ)
    (stealR : Nat) (h1 : 0 ≤ robber.wallet) (h2 : 0 ≤ victim.wallet) :
    0 ≤ (rob robber victim now true stealR).1.wallet ∧
    0 ≤ (rob robber victim now true stealR).2.wallet := by
  unfold rob
  split_ifs with hc ht hv hr <;> dsimp only
  · exact ⟨h1, h2⟩
  · exact ⟨h1, h2⟩
  case _ =>
    have hvpos : 0 < victim.wallet := lt_of_not_le hv
    have hamt : 0 ≤ min (max 1 (victim.wallet *
        ((((stealR % 10 : Nat) : ℚ) + 1) / 100))) victim.wallet :=
      le_min (le_trans zero_le_one (le_max_left _ _)) (le_of_lt hvpos)
    have hle : min (max 1 (victim.wallet *
        ((((stealR % 10 : Nat) : ℚ) + 1) / 100))) victim.wallet ≤
        victim.wallet := min_le_right _ _
    constructor
    · linarith
    · linarith
  · exact absurd rfl ht
  · exact absurd rfl ht

/-- A failed rob fines `max(1, 5% of the wallet)`: the wallet stays
nonnegative only when it is at least 1 (or the fine branch is skipped
for an empty wallet). -/
theorem rob_fail_nonneg (robber victim : UserRec) (now : ℚ)
    (stealR : Nat) (hcase : 1 ≤ robber.wallet ∨ robber.wallet ≤ 0)
    (h1 : 0 ≤ robber.wallet) (h2 : 0 ≤ victim.wallet) :
    0 ≤ (rob robber victim now false stealR).1.wallet ∧
    0 ≤ (rob robber victim now false stealR).2.wallet := by
  unfold rob
  split_ifs with hc hf hv hr <;> dsimp only
  · exact ⟨h1, h2⟩
  · exact absurd hf (by simp)
  · exact absurd hf (by simp)
  · exact ⟨h1, h2⟩
  case _ =>
    have hpos : 0 < robber.wallet := lt_of_not_le hr
    rcases hcase with hge | hle0
    · have hfine : max 1 (robber.wallet * (5 / 100)) ≤ robber.wallet := by
        apply max_le hge
        nlinarith
      exact ⟨by linarith, h2⟩
    · exact absurd hle0 (not_le.mpr hpos)

theorem setMoney_wallet_nonneg (rec : UserRec) (w b : Option ℚ)
    (hrec : 0 ≤ rec.wallet) : 0 ≤ (setMoney rec w b).1.wallet := by
  unfold setMoney
  cases w with
  | none =>
      cases b with
      | none => exact hrec
      | some bv => dsimp only; split_ifs <;> dsimp only <;> exact hrec
  | some wv =>
      cases b with
      | none =>
          dsimp only
          split_ifs with h <;> dsimp only
          · exact hrec
          · linarith [not_lt.mp h]
      | some bv =>
          dsimp only
          split_ifs with h1 h2 <;> dsimp only
          · exact hrec
          · exact hrec
          · linarith [not_lt.mp h1]

theorem adjust_wallet_nonneg (rec : UserRec) (delta floor : ℚ)
    (hfloor : 0 ≤ floor) (hrec : 0 ≤ rec.wallet) :
    0 ≤ (adjust_wallet rec delta floor).1.wallet := by
  unfold adjust_wallet
  split_ifs with h <;> dsimp only
  · exact hrec
  · linarith [not_lt.mp h]

theorem set_balances_wallet_nonneg (rec : UserRec) (w b : Option ℚ)
    (hrec : 0 ≤ rec.wallet) : 0 ≤ (set_balances rec w b).wallet := by
  unfold set_balances
  cases w <;> cases b <;> dsimp only <;>
    first
      | exact hrec
      | exact le_max_left 0 _

/-- C7 (amended): starting from nonnegative wallets (and, for the
session operations, the creation invariants `0 ≤ stake ≤ walletBefore`
and multipliers ≥ 1), every ledger operation — session create, advance,
cash-out, earn, deposit, withdraw, sendMoney, a successful rob,
setBalances, release, and bank.py's `adjust_wallet` (floor ≥ 0) and
`set_balances` — leaves every touched wallet nonnegative, with one
exception: the failed-rob fine `max(1.0, wallet × 0.05)` preserves
nonnegativity only when the robber's wallet is ≥ 1 or ≤ 0; a wallet
strictly between 0 and 1 is driven negative (see the counterexample). -/
theorem duck_c7_wallet_nonneg
    (rec sender receiver robber victim : UserRec) (v : GameView)
    (spec : AmountSpec) (amount now delta floor : ℚ)
    (stealR c : Nat) (w b : Option ℚ)
    (hrec : 0 ≤ rec.wallet) (hs : 0 ≤ sender.wallet)
    (hr : 0 ≤ receiver.wallet) (hrob : 0 ≤ robber.wallet)
    (hvic : 0 ≤ victim.wallet)
    (hvamt : 0 ≤ v.amount) (hvwb : v.amount ≤ v.walletBefore)
    (hvm : ∀ m ∈ v.multipliers, 1 ≤ m) (hvmul : 1 ≤ v.multiplier)
    (hfloor : 0 ≤ floor) :
    0 ≤ (duckCreate rec spec).1.wallet ∧
    0 ≤ (forward c v rec).2.1.wallet ∧
    0 ≤ (stop c v rec).2.1.wallet ∧
    0 ≤ (requestCashOut c v rec).2.1.wallet ∧
    0 ≤ (earn rec now).1.wallet ∧
    0 ≤ (depositAmt rec amount).1.wallet ∧
    0 ≤ (withdrawAmt rec amount).1.wallet ∧
    0 ≤ (sendMoney sender receiver amount).1.wallet ∧
    0 ≤ (sendMoney sender receiver amount).2.1.wallet ∧
    0 ≤ (rob robber victim now true stealR).1.wallet ∧
    0 ≤ (rob robber victim now true stealR).2.wallet ∧
    ((1 ≤ robber.wallet ∨ robber.wallet ≤ 0) →
      0 ≤ (rob robber victim now false stealR).1.wallet) ∧
    0 ≤ (rob robber victim now false stealR).2.wallet ∧
    0 ≤ (setMoney rec w b).1.wallet ∧
    0 ≤ (releaseUser rec).wallet ∧
    0 ≤ (adjust_wallet rec delta floor).1.wallet ∧
    0 ≤ (set_balances rec w b).wallet := by
  refine ⟨duckCreate_wallet_nonneg rec spec hrec,
    forward_wallet_nonneg c v rec hrec hvamt hvwb hvm hvmul,
    stop_wallet_nonneg c v rec hrec hvamt hvwb hvm hvmul,
    requestCashOut_wallet_nonneg c v rec hrec hvamt hvwb hvm hvmul,
    earn_wallet_nonneg rec now hrec,
    depositAmt_wallet_nonneg rec amount hrec,
    withdrawAmt_wallet_nonneg rec amount hrec,
    (sendMoney_wallet_nonneg sender receiver amount hs hr).1,
    (sendMoney_wallet_nonneg sender receiver amount hs hr).2,
    (rob_success_nonneg robber victim now stealR hrob hvic).1,
    (rob_success_nonneg robber victim now stealR hrob hvic).2,
    fun hcase =>
      (rob_fail_nonneg robber victim now stealR hcase hrob hvic).1,
    ?_,
    setMoney_wallet_nonneg rec w b hrec,
    hrec,
    adjust_wallet_nonneg rec delta floor hfloor hrec,
    set_balances_wallet_nonneg rec w b hrec⟩
  · -- a failed rob never touches the victim's wallet
    unfold rob
    split_ifs with hc hf hv hr <;> dsimp only <;>
      first
        | exact hvic
        | exact hf.elim

/-- C7 counterexample: the claim that no operation drives a wallet
negative is false.  A robber with a nonnegative wallet of 0.50 who
fails a rob (cooldown long expired) is fined `max(1.0, 0.50 × 0.05) =
1.0` and ends at -0.50. -/
theorem duck_c7_counterexample :
    (0:ℚ) ≤ ({ defaultRec with wallet := 1/2 } : UserRec).wallet ∧
    (rob { defaultRec with wallet := 1/2 } defaultRec 10000 false
        0).1.wallet < 0 := by
  constructor
  · norm_num [defaultRec]
  · norm_num [rob, defaultRec]

/-- Concrete inputs for the C7 witness: a valid two-lane session
(stake 100 of wallet 1000, multipliers 2 and 3) and a robber with
wallet 50. -/
def c7view : GameView := mkView 1 100 1000 900 1 [2, 3] 2 0 0

def c7robber : UserRec := { defaultRec with wallet := 50 }

/-- C7 witness: at the concrete inputs every listed operation keeps the
touched wallets nonnegative, including a failed rob against wallet 50. -/
theorem duck_c7_witness :
    0 ≤ (duckCreate defaultRec (.num 100)).1.wallet ∧
    0 ≤ (forward 1 c7view defaultRec).2.1.wallet ∧
    0 ≤ (stop 1 c7view defaultRec).2.1.wallet ∧
    0 ≤ (requestCashOut 1 c7view defaultRec).2.1.wallet ∧
    0 ≤ (earn defaultRec 10000).1.wallet ∧
    0 ≤ (depositAmt defaultRec 25).1.wallet ∧
    0 ≤ (withdrawAmt defaultRec 25).1.wallet ∧
    0 ≤ (sendMoney defaultRec defaultRec 25).1.wallet ∧
    0 ≤ (sendMoney defaultRec defaultRec 25).2.1.wallet ∧
    0 ≤ (rob c7robber defaultRec 10000 true 3).1.wallet ∧
    0 ≤ (rob c7robber defaultRec 10000 true 3).2.wallet ∧
    ((1 ≤ c7robber.wallet ∨ c7robber.wallet ≤ 0) →
      0 ≤ (rob c7robber defaultRec 10000 false 3).1.wallet) ∧
    0 ≤ (rob c7robber defaultRec 10000 false 3).2.wallet ∧
    0 ≤ (setMoney defaultRec (some 7) (some 8)).1.wallet ∧
    0 ≤ (releaseUser defaultRec).wallet ∧
    0 ≤ (adjust_wallet defaultRec 5 0).1.wallet ∧
    0 ≤ (set_balances defaultRec (some 7) (some 8)).wallet :=
  duck_c7_wallet_nonneg defaultRec defaultRec defaultRec c7robber
    defaultRec c7view (.num 100) 25 10000 5 0 3 1 (some 7) (some 8)
    (by decide) (by decide) (by decide) (by decide) (by decide)
    (by decide) (by decide) (by decide) (by decide) (by decide)
